import Mathlib

/-!
# Verification of the `tfts` dataset generators (`tfts/datasets/get_data.py`)

Shallow embedding of the three leaf functions of the data-loading layer:

* `get_sine` — synthetic sine/cosine windowed examples;
* `get_air_passengers` — sliding windows over the normalized 144-row
  air-passenger series (the CSV content is a parameter `raw` of the
  embedding, since it is fetched over HTTP at run time);
* `get_stock_data` — error translation around a remote provider call
  (the provider's response is a parameter of the embedding).

Numeric values are modelled as exact rationals `ℚ` in place of IEEE
floats; the transcendental functions `np.sin`, `np.cos`, the constant
`np.pi` and the per-example draws of `random.random() * 2 * np.pi` are
abstracted as parameters (`sinF`, `cosF`, `pi`, `rand`), since none of
the verified properties depend on their values.  The pure array
re-shaping (`np.roll`, `np.stack`, slicing, transposition) is translated
operation by operation on nested lists; those combinators are kept
polymorphic in the element type, as the numpy operations never inspect
the values.
-/

set_option autoImplicit false

namespace TFTS

/-- A 3-d array `(examples, time, channels)`, as produced by both
generators (`np.ndarray` of shape `(N, T, C)`). -/
abbrev Arr3 := List (List (List ℚ))

/-- Return value of `get_sine` / `get_air_passengers`:
`split ((x_train, y_train), (x_valid, y_valid))` when `test_size > 0`,
otherwise the single combined pair `whole (x_array, y_array)`. -/
inductive GenResult where
  | split : (Arr3 × Arr3) → (Arr3 × Arr3) → GenResult
  | whole : (Arr3 × Arr3) → GenResult
deriving DecidableEq

/-- Embedding of `np.roll(v, s, axis=0)` for a non-negative shift `s`:
element `i` of the result is `v[(i - s) mod n]`. -/
def npRoll {α : Type} (v : List α) (s : Nat) : List α :=
  v.drop (v.length - s % v.length) ++ v.take (v.length - s % v.length)

/-- Embedding of `np.roll(v, -s, axis=0)` (negative shift): element `i`
of the result is `v[(i + s) mod n]`. -/
def npRollNeg {α : Type} (v : List α) (s : Nat) : List α :=
  v.drop (s % v.length) ++ v.take (s % v.length)

/-- Embedding of `np.max` on a one-column series (undefined on the empty
array in numpy; the embedding returns `0` there, a case never reached by
the 144-row series). -/
def npMax (v : List ℚ) : ℚ :=
  match v with
  | [] => 0
  | a :: l => l.foldl max a

/-- Embedding of `np.min` on a one-column series (same convention on the
empty array as `npMax`). -/
def npMin (v : List ℚ) : ℚ :=
  match v with
  | [] => 0
  | a :: l => l.foldl min a

/-- Embedding of line 102 of `get_data.py`, exactly as written there:
`v = (v - np.max(v)) / (np.max(v) - np.min(v))`. -/
def scaleSeries (v : List ℚ) : List ℚ :=
  v.map (fun a => (a - npMax v) / (npMax v - npMin v))

/-- Modelled from the spec: min-max normalization, "rescaling values to a
bounded range using the series' observed minimum and maximum", i.e.
`(v - min) / (max - min)`.  This is the reference the claim compares the
code's `scaleSeries` against. -/
def minMaxNormalizeSpec (v : List ℚ) : List ℚ :=
  v.map (fun a => (a - npMin v) / (npMax v - npMin v))

/-- Python's `int(q)` (truncation toward zero). -/
def pyInt (q : ℚ) : Int :=
  if 0 ≤ q then ⌊q⌋ else ⌈q⌉

/-- The split index `int(n * (1 - test_size))` used by both generators. -/
def slicePoint (n : Nat) (test_size : ℚ) : Nat :=
  (pyInt ((n : ℚ) * (1 - test_size))).toNat

/-- Python slice `rows[L:-P]` (used with `L = train_sequence_length`,
`P = predict_sequence_length`): rows `L, ..., len - P - 1`; empty when
`P = 0` since `rows[L:0]` is empty in Python. -/
def trimLP {α : Type} (rows : List α) (L P : Nat) : List α :=
  if P = 0 then [] else (rows.drop L).take (rows.length - P - L)

/-- The pre-trim stacked input windows of `get_air_passengers` (lines
104-109): `x` collects `np.roll(v, seq)` for `seq = 1, ..., L` and
`np.stack(x, axis=1)` makes row `i` the list of the rolled series'
entries at position `i`.  The innermost singleton list is the series'
one channel (column `1:2` of the dataframe). -/
def air_x_pre {α : Type} [Inhabited α] (v : List α) (L : Nat) : List (List (List α)) :=
  let rolls := (List.range L).map (fun k => npRoll v (k + 1))
  (List.range v.length).map (fun i => rolls.map (fun r => [r.getD i default]))

/-- The pre-trim stacked output windows of `get_air_passengers` (lines
112-115): `y` collects `np.roll(v, -seq)` for `seq = 0, ..., P - 1`,
stacked on axis 1. -/
def air_y_pre {α : Type} [Inhabited α] (v : List α) (P : Nat) : List (List (List α)) :=
  let rolls := (List.range P).map (fun s => npRollNeg v s)
  (List.range v.length).map (fun i => rolls.map (fun r => [r.getD i default]))

/-- Line 110: `x_array = x_array[train_length:-predict_sequence_length, ::-1, :]`
— trim the first `L` and last `P` rows and reverse the time axis. -/
def air_x {α : Type} [Inhabited α] (v : List α) (L P : Nat) : List (List (List α)) :=
  (trimLP (air_x_pre v L) L P).map List.reverse

/-- Line 116: `y_array = y_array[train_length:-predict_sequence_length]`. -/
def air_y {α : Type} [Inhabited α] (v : List α) (L P : Nat) : List (List (List α)) :=
  trimLP (air_y_pre v P) L P

/-- Embedding of `get_air_passengers` (lines 86-126).  `raw` is the
one-column content of the 144-row CSV (`df.iloc[:, 1:2].values`), a
parameter because the CSV is fetched over HTTP. -/
def get_air_passengers (raw : List ℚ) (L P : Nat) (test_size : ℚ) : GenResult :=
  let v := scaleSeries raw
  let x_array := air_x v L P
  let y_array := air_y v L P
  if 0 < test_size then
    let s := slicePoint x_array.length test_size
    GenResult.split (x_array.take s, y_array.take s) (x_array.drop s, y_array.drop s)
  else
    GenResult.whole (x_array, y_array)

/-- Embedding of `np.linspace(a, b, num)` (endpoint included):
`num` evenly spaced points from `a` to `b`. -/
def linspace (a b : ℚ) (num : Nat) : List ℚ :=
  if num = 1 then [a]
  else (List.range num).map (fun (i : Nat) => a + (b - a) * (i : ℚ) / ((num : ℚ) - 1))

/-- One channel of one sine example (lines 58-59):
`f(np.linspace(rand, 3.0 * np.pi + rand, L + P))` with `f` one of
`np.sin` / `np.cos` (abstracted) and `rand` the example's phase draw. -/
def sineSig (f : ℚ → ℚ) (pi rand : ℚ) (L P : Nat) : List ℚ :=
  (linspace rand (3 * pi + rand) (L + P)).map f

/-- One example of `get_sine` (lines 57-70): the two channels are split
at index `L`, and `np.array([x1, x2]).T` makes time the first axis, so
row `k` is the two-channel point `[sig1[k], sig2[k]]`. -/
def sineExample (sinF cosF : ℚ → ℚ) (pi rand : ℚ) (L P : Nat) :
    List (List ℚ) × List (List ℚ) :=
  let sig1 := sineSig sinF pi rand L P
  let sig2 := sineSig cosF pi rand L P
  let x1 := sig1.take L
  let y1 := sig1.drop L
  let x2 := sig2.take L
  let y2 := sig2.drop L
  (List.zipWith (fun u v => [u, v]) x1 x2, List.zipWith (fun u v => [u, v]) y1 y2)

/-- Line 72: `x_array = np.array(x)[:, :, 0:1]` — stack the `n` examples
and keep only the first channel.  `rand j` is the phase drawn for
example `j`.  This total function models the slice only for `n ≥ 1`, where
`np.array(x)` is 3-dimensional; the `n = 0` error path of the source (where
`np.array` of the empty list is 1-dimensional and the three-index slice
raises IndexError) is tracked by `slice_channel0` / `get_sine_checked`
below. -/
def sine_x_array (sinF cosF : ℚ → ℚ) (pi : ℚ) (rand : Nat → ℚ) (L P n : Nat) : Arr3 :=
  ((List.range n).map (fun j => (sineExample sinF cosF pi (rand j) L P).1)).map
    (fun ex => ex.map (fun row => row.take 1))

/-- Line 73: `y_array = np.array(y)[:, :, 0:1]` (same `n = 0` caveat as
`sine_x_array`). -/
def sine_y_array (sinF cosF : ℚ → ℚ) (pi : ℚ) (rand : Nat → ℚ) (L P n : Nat) : Arr3 :=
  ((List.range n).map (fun j => (sineExample sinF cosF pi (rand j) L P).2)).map
    (fun ex => ex.map (fun row => row.take 1))

/-- Embedding of `get_sine` (lines 39-83). -/
def get_sine (sinF cosF : ℚ → ℚ) (pi : ℚ) (rand : Nat → ℚ)
    (L P : Nat) (test_size : ℚ) (n_examples : Nat) : GenResult :=
  let x_array := sine_x_array sinF cosF pi rand L P n_examples
  let y_array := sine_y_array sinF cosF pi rand L P n_examples
  if 0 < test_size then
    let s := slicePoint n_examples test_size
    GenResult.split (x_array.take s, y_array.take s) (x_array.drop s, y_array.drop s)
  else
    GenResult.whole (x_array, y_array)

/-- The slice `np.array(stack)[:, :, 0:1]` of lines 72-73 with its
dimensionality requirement tracked: on a non-empty example list the stacked
array is 3-dimensional and the slice keeps the first channel of every row,
but `np.array` of the empty list is the 1-dimensional `np.array([])`, and a
three-index basic slice of a 1-dimensional array raises
`IndexError: too many indices for array` — modelled as `none`. -/
def slice_channel0 (stack : List (List (List ℚ))) : Option Arr3 :=
  if stack.isEmpty then none
  else some (stack.map (fun ex => ex.map (fun row => row.take 1)))

/-- Embedding of `get_sine` (lines 39-83) with the error path of the channel
slice kept: `none` when line 72 raises IndexError (exactly when the example
list is empty, i.e. `n_examples = 0`), otherwise the same result as
`get_sine`. -/
def get_sine_checked (sinF cosF : ℚ → ℚ) (pi : ℚ) (rand : Nat → ℚ)
    (L P : Nat) (test_size : ℚ) (n_examples : Nat) : Option GenResult :=
  (slice_channel0 ((List.range n_examples).map
      (fun j => (sineExample sinF cosF pi (rand j) L P).1))).bind (fun x_array =>
  (slice_channel0 ((List.range n_examples).map
      (fun j => (sineExample sinF cosF pi (rand j) L P).2))).bind (fun y_array =>
  some (if 0 < test_size then
    let s := slicePoint n_examples test_size
    GenResult.split (x_array.take s, y_array.take s) (x_array.drop s, y_array.drop s)
  else
    GenResult.whole (x_array, y_array))))

/-- The outcome of the `yf.download` provider call, a parameter of the
embedding of `get_stock_data`: either the returned dataframe rows, or an
exception with message `msg`. -/
inductive ProviderResult where
  | ok : List (List ℚ) → ProviderResult
  | raised : String → ProviderResult
deriving DecidableEq

/-- What `get_stock_data` does: return the dataframe or raise a
`ValueError` with the given message. -/
inductive FetchResult where
  | ok : List (List ℚ) → FetchResult
  | valueError : String → FetchResult
deriving DecidableEq

/-- Embedding of `get_stock_data` (lines 129-149).  The whole provider
call and the empty-result check sit inside one `try`; the inner
`raise ValueError(f"No data available for ticker: ...")` is itself
caught by the `except Exception as e` clause and re-wrapped as
`ValueError(f"Error retrieving stock data: ...")`, and so is any
exception raised by the provider call. -/
def get_stock_data (ticker : String) (provider : ProviderResult) : FetchResult :=
  match provider with
  | ProviderResult.raised msg =>
      FetchResult.valueError ("Error retrieving stock data: " ++ msg)
  | ProviderResult.ok data =>
      if data.isEmpty then
        FetchResult.valueError
          ("Error retrieving stock data: " ++ ("No data available for ticker: " ++ ticker))
      else
        FetchResult.ok data

/-! ## Helper lemmas about the array combinators -/

theorem length_npRoll {α : Type} (v : List α) (s : Nat) :
    (npRoll v s).length = v.length := by
  simp only [npRoll, List.length_append, List.length_drop, List.length_take]
  have := Nat.mod_le s v.length
  rcases Nat.eq_zero_or_pos v.length with h | h
  · simp [h]
  · have := Nat.mod_lt s h
    omega

theorem length_npRollNeg {α : Type} (v : List α) (s : Nat) :
    (npRollNeg v s).length = v.length := by
  simp only [npRollNeg, List.length_append, List.length_drop, List.length_take]
  rcases Nat.eq_zero_or_pos v.length with h | h
  · simp [h]
  · have := Nat.mod_lt s h
    omega

theorem npRoll_getElem? {α : Type} (v : List α) (s j : Nat)
    (hs : s < v.length) (hsj : s ≤ j) (hj : j < v.length) :
    (npRoll v s)[j]? = v[j - s]? := by
  have hmod : s % v.length = s := Nat.mod_eq_of_lt hs
  have hlen : (v.drop (v.length - s)).length = s := by
    rw [List.length_drop]; omega
  rw [npRoll, hmod, List.getElem?_append_right (by rw [hlen]; exact hsj), hlen,
    List.getElem?_take, if_pos (by omega)]

theorem npRollNeg_getElem? {α : Type} (v : List α) (s j : Nat)
    (hs : s < v.length) (hj : j + s < v.length) :
    (npRollNeg v s)[j]? = v[j + s]? := by
  have hmod : s % v.length = s := Nat.mod_eq_of_lt hs
  rw [npRollNeg, hmod, List.getElem?_append, List.length_drop, if_pos (by omega),
    List.getElem?_drop, Nat.add_comm s j]

theorem npRoll_getD {α : Type} [Inhabited α] (v : List α) (s j : Nat)
    (hs : s < v.length) (hsj : s ≤ j) (hj : j < v.length) :
    (npRoll v s).getD j default = v.getD (j - s) default := by
  rw [List.getD_eq_getElem?_getD, List.getD_eq_getElem?_getD,
    npRoll_getElem? v s j hs hsj hj]

theorem npRollNeg_getD {α : Type} [Inhabited α] (v : List α) (s j : Nat)
    (hs : s < v.length) (hj : j + s < v.length) :
    (npRollNeg v s).getD j default = v.getD (j + s) default := by
  rw [List.getD_eq_getElem?_getD, List.getD_eq_getElem?_getD,
    npRollNeg_getElem? v s j hs hj]

theorem drop_take_eq_map_range {α : Type} [Inhabited α] (v : List α) (i m : Nat)
    (h : i + m ≤ v.length) :
    (v.drop i).take m = (List.range m).map (fun k => v.getD (i + k) default) := by
  apply List.ext_getElem
  · simp only [List.length_take, List.length_drop, List.length_map, List.length_range]
    omega
  · intro k h1 h2
    rw [List.getElem_take, List.getElem_drop, List.getElem_map, List.getElem_range,
      List.getD_eq_getElem v default (by
        simp only [List.length_take, List.length_drop] at h1
        omega)]

theorem reverse_map_range {α : Type} (m : Nat) (f : Nat → α) :
    ((List.range m).map f).reverse = (List.range m).map (fun k => f (m - 1 - k)) := by
  apply List.ext_getElem
  · simp
  · intro k h1 h2
    rw [List.getElem_reverse]
    simp only [List.getElem_map, List.getElem_range, List.length_map, List.length_range]

theorem getD_map_range {α : Type} [Inhabited α] (n j : Nat) (f : Nat → α) (h : j < n) :
    ((List.range n).map f).getD j default = f j := by
  rw [List.getD_eq_getElem _ _ (by simpa using h)]
  simp

theorem air_x_pre_eq {α : Type} [Inhabited α] (v : List α) (L : Nat) :
    air_x_pre v L = (List.range v.length).map
      (fun i => (List.range L).map (fun k => [(npRoll v (k + 1)).getD i default])) := by
  unfold air_x_pre
  simp [List.map_map, Function.comp]

theorem air_y_pre_eq {α : Type} [Inhabited α] (v : List α) (P : Nat) :
    air_y_pre v P = (List.range v.length).map
      (fun i => (List.range P).map (fun s => [(npRollNeg v s).getD i default])) := by
  unfold air_y_pre
  simp [List.map_map, Function.comp]

theorem length_air_x_pre {α : Type} [Inhabited α] (v : List α) (L : Nat) :
    (air_x_pre v L).length = v.length := by
  rw [air_x_pre_eq]
  simp

theorem length_air_y_pre {α : Type} [Inhabited α] (v : List α) (P : Nat) :
    (air_y_pre v P).length = v.length := by
  rw [air_y_pre_eq]
  simp

theorem length_air_x {α : Type} [Inhabited α] (v : List α) (L P : Nat) (hP : 1 ≤ P) :
    (air_x v L P).length = v.length - L - P := by
  rw [air_x, trimLP, if_neg (by omega)]
  simp only [List.length_map, List.length_take, List.length_drop, length_air_x_pre]
  omega

theorem length_air_y {α : Type} [Inhabited α] (v : List α) (L P : Nat) (hP : 1 ≤ P) :
    (air_y v L P).length = v.length - L - P := by
  rw [air_y, trimLP, if_neg (by omega)]
  simp only [List.length_take, List.length_drop, length_air_y_pre]
  omega

theorem air_x_eq {α : Type} [Inhabited α] (v : List α) (L P : Nat)
    (hL : 1 ≤ L) (hP : 1 ≤ P) (hv : L + P ≤ v.length) :
    air_x v L P = (List.range (v.length - L - P)).map
      (fun i => ((v.drop i).take L).map (fun a => [a])) := by
  unfold air_x trimLP
  rw [if_neg (show ¬P = 0 by omega), air_x_pre_eq]
  simp only [List.length_map, List.length_range]
  apply List.ext_getElem
  · simp only [List.length_map, List.length_take, List.length_drop, List.length_range]
    omega
  · intro i h1 h2
    have hi : i < v.length - L - P := by
      simp only [List.length_map, List.length_take, List.length_drop,
        List.length_range] at h1
      omega
    have hLi : L + i < v.length := by omega
    simp only [List.getElem_map, List.getElem_take, List.getElem_drop, List.getElem_range]
    rw [reverse_map_range, drop_take_eq_map_range v i L (by omega), List.map_map]
    apply List.map_congr_left
    intro k hk
    have hkL : k < L := List.mem_range.mp hk
    have hs1 : L - 1 - k + 1 = L - k := by omega
    simp only [Function.comp]
    rw [hs1, npRoll_getD v (L - k) (L + i) (by omega) (by omega) (by omega)]
    have h3 : L + i - (L - k) = i + k := by omega
    rw [h3]

theorem air_y_eq {α : Type} [Inhabited α] (v : List α) (L P : Nat)
    (hL : 1 ≤ L) (hP : 1 ≤ P) (hv : L + P ≤ v.length) :
    air_y v L P = (List.range (v.length - L - P)).map
      (fun i => ((v.drop (i + L)).take P).map (fun a => [a])) := by
  unfold air_y trimLP
  rw [if_neg (show ¬P = 0 by omega), air_y_pre_eq]
  simp only [List.length_map, List.length_range]
  apply List.ext_getElem
  · simp only [List.length_map, List.length_take, List.length_drop, List.length_range]
    omega
  · intro i h1 h2
    have hi : i < v.length - L - P := by
      simp only [List.length_take, List.length_drop, List.length_map,
        List.length_range] at h1
      omega
    have hLi : L + i < v.length := by omega
    simp only [List.getElem_map, List.getElem_take, List.getElem_drop, List.getElem_range]
    rw [drop_take_eq_map_range v (i + L) P (by omega), List.map_map]
    apply List.map_congr_left
    intro s hs
    have hsP : s < P := List.mem_range.mp hs
    simp only [Function.comp]
    rw [npRollNeg_getD v s (L + i) (by omega) (by omega)]
    have h3 : L + i + s = i + L + s := by omega
    rw [h3]

theorem length_linspace (a b : ℚ) (num : Nat) : (linspace a b num).length = num := by
  unfold linspace
  split
  · simp only [List.length_singleton]
    omega
  · rw [List.length_map, List.length_range]

theorem length_sineSig (f : ℚ → ℚ) (pi rand : ℚ) (L P : Nat) :
    (sineSig f pi rand L P).length = L + P := by
  unfold sineSig
  rw [List.length_map, length_linspace]

theorem zipWith_pair_take_one {α : Type} (a b : List α) (h : a.length ≤ b.length) :
    (List.zipWith (fun u v => [u, v]) a b).map (fun row => row.take 1) =
      a.map (fun u => [u]) := by
  induction a generalizing b with
  | nil => simp
  | cons x xs ih =>
    cases b with
    | nil => simp at h
    | cons y ys =>
      simp only [List.zipWith_cons_cons, List.map_cons, List.take_succ_cons,
        List.take_zero]
      rw [ih ys (by simpa using h)]

theorem sine_x_array_eq (sinF cosF : ℚ → ℚ) (pi : ℚ) (rand : Nat → ℚ) (L P n : Nat) :
    sine_x_array sinF cosF pi rand L P n = (List.range n).map
      (fun j => ((sineSig sinF pi (rand j) L P).take L).map (fun u => [u])) := by
  unfold sine_x_array
  rw [List.map_map]
  apply List.map_congr_left
  intro j hj
  simp only [Function.comp]
  unfold sineExample
  exact zipWith_pair_take_one _ _ (by
    simp only [List.length_take, length_sineSig]
    exact le_rfl)

theorem sine_y_array_eq (sinF cosF : ℚ → ℚ) (pi : ℚ) (rand : Nat → ℚ) (L P n : Nat) :
    sine_y_array sinF cosF pi rand L P n = (List.range n).map
      (fun j => ((sineSig sinF pi (rand j) L P).drop L).map (fun u => [u])) := by
  unfold sine_y_array
  rw [List.map_map]
  apply List.map_congr_left
  intro j hj
  simp only [Function.comp]
  unfold sineExample
  exact zipWith_pair_take_one _ _ (by
    simp only [List.length_drop, length_sineSig]
    exact le_rfl)

theorem length_sine_x_array (sinF cosF : ℚ → ℚ) (pi : ℚ) (rand : Nat → ℚ) (L P n : Nat) :
    (sine_x_array sinF cosF pi rand L P n).length = n := by
  rw [sine_x_array_eq]
  simp

theorem length_sine_y_array (sinF cosF : ℚ → ℚ) (pi : ℚ) (rand : Nat → ℚ) (L P n : Nat) :
    (sine_y_array sinF cosF pi rand L P n).length = n := by
  rw [sine_y_array_eq]
  simp

theorem length_take_add_length_drop {α : Type} (l : List α) (s : Nat) :
    (l.take s).length + (l.drop s).length = l.length := by
  rw [← List.length_append, List.take_append_drop]

theorem slicePoint_eq_floor (n : Nat) (t : ℚ) (h0 : 0 ≤ t) (h1 : t ≤ 1) :
    (slicePoint n t : Int) = ⌊(n : ℚ) * (1 - t)⌋ := by
  have hq : 0 ≤ (n : ℚ) * (1 - t) := by
    apply mul_nonneg (by positivity)
    linarith
  unfold slicePoint pyInt
  rw [if_pos hq, Int.toNat_of_nonneg (Int.floor_nonneg.mpr hq)]

/-! ## The claims -/

/-- C1: for every example index of the arrays produced by the air-passenger
windowing and by the sine generator, the input window `x[i]` is a
`train_length`-wide contiguous slice of the series and the paired output
window `y[i]` is the `predict_sequence_length`-wide contiguous slice starting
at the position right after `x[i]`'s last element: for the air-passenger data
`x[i]` reads series positions `i, ..., i+L-1` and `y[i]` positions
`i+L, ..., i+L+P-1`; for the sine data each example's series is its generated
signal, `x` its first `L` points and `y` the following `P` points. -/
theorem C1_window_alignment (L P : Nat) (hL : 1 ≤ L) (hP : 1 ≤ P)
    (v : List ℚ) (hv : L + P ≤ v.length)
    (sinF cosF : ℚ → ℚ) (pi : ℚ) (rand : Nat → ℚ) (n : Nat) :
    (air_x v L P = (List.range (v.length - L - P)).map
        (fun i => ((v.drop i).take L).map (fun a => [a])) ∧
      air_y v L P = (List.range (v.length - L - P)).map
        (fun i => ((v.drop (i + L)).take P).map (fun a => [a]))) ∧
    (sine_x_array sinF cosF pi rand L P n = (List.range n).map
        (fun j => ((sineSig sinF pi (rand j) L P).take L).map (fun u => [u])) ∧
      sine_y_array sinF cosF pi rand L P n = (List.range n).map
        (fun j => ((sineSig sinF pi (rand j) L P).drop L).map (fun u => [u]))) :=
  ⟨⟨air_x_eq v L P hL hP hv, air_y_eq v L P hL hP hv⟩,
    sine_x_array_eq sinF cosF pi rand L P n,
    sine_y_array_eq sinF cosF pi rand L P n⟩

/-- Witness for C1 at the series `0, 1, 2, 3` with `L = 2`, `P = 1` and one
sine example. -/
theorem C1_window_alignment_witness :
    (1 ≤ 2 ∧ 1 ≤ 1 ∧ 2 + 1 ≤ ([0, 1, 2, 3] : List ℚ).length) ∧
    air_x ([0, 1, 2, 3] : List ℚ) 2 1 = (List.range (([0, 1, 2, 3] : List ℚ).length - 2 - 1)).map
      (fun i => ((([0, 1, 2, 3] : List ℚ).drop i).take 2).map (fun a => [a])) :=
  ⟨⟨by decide, by decide, by decide⟩,
    (C1_window_alignment 2 1 (by decide) (by decide) [0, 1, 2, 3] (by decide)
      id id 0 (fun _ => 0) 1).1.1⟩

set_option maxRecDepth 10000 in
/-- C2 counterexample: the claim says the trim of the first `train_length`
and last `predict_sequence_length` rows removes exactly the wrapped windows,
but with the 144-row series `0, ..., 143`, `L = 2`, `P = 1` only 141 rows are
kept while 142 of the 144 pre-trim rows have windows free of wrap-around:
pre-trim row 143 reads `x` positions 141, 142 (in order, once the time axis
is reversed) and `y` position 143 — no wrapped value — yet it is trimmed
away. -/
theorem C2_trim_counterexample :
    (air_x (List.range 144) 2 1).length = 141 ∧
    ((air_x_pre (List.range 144) 2).getD 143 []).reverse = [[141], [142]] ∧
    (air_y_pre (List.range 144) 1).getD 143 [] = [[143]] := by decide

/-- C2 amended: for the air-passenger generator with
`1 ≤ train_sequence_length`, `1 ≤ predict_sequence_length` and
`train_sequence_length + predict_sequence_length ≤ 144`, the returned `x`
and `y` arrays have the same first-dimension length, and every value of
every kept `x` window is the series value at its in-order, in-bounds
position (no window contains values wrapped around the array boundary by
`np.roll`); the trim removes all the wrapped windows, though not exactly
them — the last trimmed row's windows do not wrap. -/
theorem C2_shape_and_bounds (raw : List ℚ) (hraw : raw.length = 144)
    (L P : Nat) (hL : 1 ≤ L) (hP : 1 ≤ P) (hv : L + P ≤ 144) :
    (air_x (scaleSeries raw) L P).length = (air_y (scaleSeries raw) L P).length ∧
    air_x (scaleSeries raw) L P = (List.range (144 - L - P)).map
      (fun i => (((scaleSeries raw).drop i).take L).map (fun a => [a])) := by
  have hlen : (scaleSeries raw).length = 144 := by
    rw [scaleSeries, List.length_map, hraw]
  constructor
  · rw [length_air_x _ _ _ hP, length_air_y _ _ _ hP]
  · rw [air_x_eq _ L P hL hP (by rw [hlen]; exact hv), hlen]

/-- Witness for C2's amended statement on a constant 144-row series with the
default window sizes. -/
theorem C2_shape_and_bounds_witness :
    (List.replicate 144 (0 : ℚ)).length = 144 ∧
    (air_x (scaleSeries (List.replicate 144 0)) 24 8).length =
      (air_y (scaleSeries (List.replicate 144 0)) 24 8).length :=
  ⟨by simp,
    (C2_shape_and_bounds (List.replicate 144 0) (by simp) 24 8
      (by decide) (by decide) (by decide)).1⟩

/-- C3: the claim states the air-passenger generator applies min-max
normalization `(v - min) / (max - min)` mapping the series into `[0, 1]`,
and the code's own comment on line 102 says `MinMaxScaler`; but the code
computes `(v - np.max(v)) / (np.max(v) - np.min(v))`, mapping the observed
maximum to 0 and the observed minimum to -1.  At the series `1, 3` the code
yields `-1, 0` where min-max normalization yields `0, 1`. -/
theorem C3_normalization_bug :
    scaleSeries [1, 3] = [-1, 0] ∧
    minMaxNormalizeSpec [1, 3] = [0, 1] ∧
    scaleSeries [1, 3] ≠ minMaxNormalizeSpec [1, 3] := by
  norm_num [scaleSeries, minMaxNormalizeSpec, npMax, npMin]

/-- C4: for `0 < test_size ≤ 1` both generators return a prefix/suffix split
of the generated examples at the point `floor(n * (1 - test_size))`, and the
train and validation counts add up to the generated example count. -/
theorem C4_split (sinF cosF : ℚ → ℚ) (pi : ℚ) (rand : Nat → ℚ)
    (L P n : Nat) (raw : List ℚ) (t : ℚ) (h0 : 0 < t) (h1 : t ≤ 1) :
    (get_sine sinF cosF pi rand L P t n =
        GenResult.split
          ((sine_x_array sinF cosF pi rand L P n).take (slicePoint n t),
            (sine_y_array sinF cosF pi rand L P n).take (slicePoint n t))
          ((sine_x_array sinF cosF pi rand L P n).drop (slicePoint n t),
            (sine_y_array sinF cosF pi rand L P n).drop (slicePoint n t)) ∧
      ((sine_x_array sinF cosF pi rand L P n).take (slicePoint n t)).length +
        ((sine_x_array sinF cosF pi rand L P n).drop (slicePoint n t)).length = n ∧
      (slicePoint n t : Int) = ⌊(n : ℚ) * (1 - t)⌋) ∧
    (get_air_passengers raw L P t =
        GenResult.split
          ((air_x (scaleSeries raw) L P).take
              (slicePoint (air_x (scaleSeries raw) L P).length t),
            (air_y (scaleSeries raw) L P).take
              (slicePoint (air_x (scaleSeries raw) L P).length t))
          ((air_x (scaleSeries raw) L P).drop
              (slicePoint (air_x (scaleSeries raw) L P).length t),
            (air_y (scaleSeries raw) L P).drop
              (slicePoint (air_x (scaleSeries raw) L P).length t)) ∧
      ((air_x (scaleSeries raw) L P).take
          (slicePoint (air_x (scaleSeries raw) L P).length t)).length +
        ((air_x (scaleSeries raw) L P).drop
          (slicePoint (air_x (scaleSeries raw) L P).length t)).length =
        (air_x (scaleSeries raw) L P).length ∧
      (slicePoint (air_x (scaleSeries raw) L P).length t : Int) =
        ⌊((air_x (scaleSeries raw) L P).length : ℚ) * (1 - t)⌋) := by
  refine ⟨⟨?_, ?_, slicePoint_eq_floor n t (le_of_lt h0) h1⟩,
    ?_, ?_, slicePoint_eq_floor _ t (le_of_lt h0) h1⟩
  · unfold get_sine
    rw [if_pos h0]
  · rw [length_take_add_length_drop, length_sine_x_array]
  · unfold get_air_passengers
    rw [if_pos h0]
  · rw [length_take_add_length_drop]

/-- Witness for C4 with `test_size = 1/2` and 4 sine examples. -/
theorem C4_split_witness :
    (0 : ℚ) < 1/2 ∧ (1/2 : ℚ) ≤ 1 ∧
    (slicePoint 4 (1/2) : Int) = ⌊(4 : ℚ) * (1 - 1/2)⌋ :=
  ⟨by norm_num, by norm_num,
    (C4_split id id 0 (fun _ => 0) 1 1 4 [1, 2, 3] (1/2)
      (by norm_num) (by norm_num)).1.2.2⟩

/-- C5: for `test_size = 0` both generators return the single combined
`(x, y)` array pair (the `whole` constructor), not a nested train/validation
tuple (the `split` constructor). -/
theorem C5_whole (sinF cosF : ℚ → ℚ) (pi : ℚ) (rand : Nat → ℚ)
    (L P n : Nat) (raw : List ℚ) :
    get_sine sinF cosF pi rand L P 0 n =
      GenResult.whole (sine_x_array sinF cosF pi rand L P n,
        sine_y_array sinF cosF pi rand L P n) ∧
    get_air_passengers raw L P 0 =
      GenResult.whole (air_x (scaleSeries raw) L P, air_y (scaleSeries raw) L P) := by
  constructor
  · unfold get_sine
    rw [if_neg (lt_irrefl 0)]
  · unfold get_air_passengers
    rw [if_neg (lt_irrefl 0)]

theorem shape_map_singleton {α : Type} (l : List α) :
    (l.map (fun u => [u])).map List.length = List.replicate l.length 1 := by
  induction l with
  | nil => rfl
  | cons a l ih => simp [ih, List.replicate_succ]

/-- C6 counterexample: the claim says the returned input samples `x` keep
both channels; but `np.array(x)[:, :, 0:1]` on line 72 drops the cosine
channel from `x` just as line 73 does for `y`.  With one example, `L = 2`,
`P = 1`: the pre-slice example rows carry 2 channels each, while the rows of
the returned `x` carry only 1. -/
theorem C6_channel_counterexample :
    (sine_x_array id id 0 (fun _ => 0) 2 1 1).map (fun ex => ex.map List.length) =
      [[1, 1]] ∧
    (sineExample id id 0 0 2 1).1.map List.length = [2, 2] := by decide

/-- C6 amended: the sine generator produces `n_examples` independent
two-channel windowed samples (a sine channel and a cosine channel built from
the same per-example phase shift `rand j`), and the channel slice keeps just
the first channel in BOTH returned arrays: the returned `x` rows and `y`
rows are singletons holding only the sine-channel values (the right-hand
sides below do not mention `cosF`). -/
theorem C6_single_channel (sinF cosF : ℚ → ℚ) (pi : ℚ) (rand : Nat → ℚ) (L P n : Nat) :
    (∀ j : Nat, sineExample sinF cosF pi (rand j) L P =
        (List.zipWith (fun u v => [u, v])
            ((sineSig sinF pi (rand j) L P).take L)
            ((sineSig cosF pi (rand j) L P).take L),
          List.zipWith (fun u v => [u, v])
            ((sineSig sinF pi (rand j) L P).drop L)
            ((sineSig cosF pi (rand j) L P).drop L))) ∧
    sine_x_array sinF cosF pi rand L P n = (List.range n).map
      (fun j => ((sineSig sinF pi (rand j) L P).take L).map (fun u => [u])) ∧
    sine_y_array sinF cosF pi rand L P n = (List.range n).map
      (fun j => ((sineSig sinF pi (rand j) L P).drop L).map (fun u => [u])) :=
  ⟨fun _ => rfl, sine_x_array_eq sinF cosF pi rand L P n,
    sine_y_array_eq sinF cosF pi rand L P n⟩

/-- C7: with `n_examples = 5` and `test_size = 0` the sine generator
returns, for any `train_sequence_length` and `predict_sequence_length`, an
`x` array of shape `(5, L, 1)` and a `y` array of shape `(5, P, 1)` (the
shape of a nested list is its length together with the shapes of its rows). -/
theorem C7_shapes (sinF cosF : ℚ → ℚ) (pi : ℚ) (rand : Nat → ℚ) (L P : Nat) :
    get_sine sinF cosF pi rand L P 0 5 =
      GenResult.whole (sine_x_array sinF cosF pi rand L P 5,
        sine_y_array sinF cosF pi rand L P 5) ∧
    (sine_x_array sinF cosF pi rand L P 5).map
        (fun ex => (ex.length, ex.map List.length)) =
      List.replicate 5 (L, List.replicate L 1) ∧
    (sine_y_array sinF cosF pi rand L P 5).map
        (fun ex => (ex.length, ex.map List.length)) =
      List.replicate 5 (P, List.replicate P 1) := by
  refine ⟨?_, ?_, ?_⟩
  · unfold get_sine
    rw [if_neg (lt_irrefl 0)]
  · rw [sine_x_array_eq, List.map_map, List.eq_replicate_iff]
    refine ⟨by simp, ?_⟩
    intro b hb
    obtain ⟨j, hj, rfl⟩ := List.mem_map.mp hb
    simp only [Function.comp]
    rw [shape_map_singleton, List.length_map, List.length_take, length_sineSig]
    have hmin : L ⊓ (L + P) = L := by omega
    rw [hmin]
  · rw [sine_y_array_eq, List.map_map, List.eq_replicate_iff]
    refine ⟨by simp, ?_⟩
    intro b hb
    obtain ⟨j, hj, rfl⟩ := List.mem_map.mp hb
    simp only [Function.comp]
    rw [shape_map_singleton, List.length_map, List.length_drop, length_sineSig]
    have hsub : L + P - L = P := by omega
    rw [hsub]

/-- C8: the claim says `n_examples = 0` yields empty arrays and does not
raise, and the spec's intent is plain ("must not error"); but the code does
error there: with `n_examples = 0` the loop never runs, the example list is
empty, and line 72 evaluates `np.array([])[:, :, 0:1]` where `np.array([])`
is 1-dimensional, so the three-index slice raises
`IndexError: too many indices for array`.  `get_sine_checked`, which tracks
that requirement, errors at `n_examples = 0` for every `test_size` and every
pair of window lengths, while agreeing with `get_sine` on a non-empty
example count such as 5. -/
theorem C8_empty_input_raises (sinF cosF : ℚ → ℚ) (pi : ℚ) (rand : Nat → ℚ)
    (L P : Nat) (t : ℚ) :
    get_sine_checked sinF cosF pi rand L P t 0 = none ∧
    get_sine_checked sinF cosF pi rand L P t 5 =
      some (get_sine sinF cosF pi rand L P t 5) :=
  ⟨rfl, rfl⟩

/-- C9: over the provider's response as an input, the stock fetcher fails
with an error whenever the provider returns an empty result set (the message
wraps the ticker name) or the provider call raises (the original message is
carried inside the single generic data-retrieval error), and on a non-empty
result the provider's data is returned unchanged. -/
theorem C9_stock_errors (ticker msg : String) (data : List (List ℚ)) (hdata : data ≠ []) :
    get_stock_data ticker (ProviderResult.ok []) =
      FetchResult.valueError
        ("Error retrieving stock data: " ++ ("No data available for ticker: " ++ ticker)) ∧
    get_stock_data ticker (ProviderResult.raised msg) =
      FetchResult.valueError ("Error retrieving stock data: " ++ msg) ∧
    get_stock_data ticker (ProviderResult.ok data) = FetchResult.ok data := by
  refine ⟨rfl, rfl, ?_⟩
  obtain ⟨d, ds, rfl⟩ := List.exists_cons_of_ne_nil hdata
  rfl

/-- Witness for C9 with ticker NVDA, provider message boom and a one-row
result set. -/
theorem C9_stock_errors_witness :
    ([[1]] : List (List ℚ)) ≠ [] ∧
    get_stock_data "NVDA" (ProviderResult.ok [[1]]) = FetchResult.ok [[1]] :=
  ⟨by decide, (C9_stock_errors "NVDA" "boom" [[1]] (by decide)).2.2⟩

/-- C10: for `1 ≤ train_sequence_length`, `1 ≤ predict_sequence_length` and
`train_sequence_length + predict_sequence_length ≤ 144`, the air-passenger
generator with `test_size = 0` returns `x` and `y` arrays whose first
dimension is exactly `144 - train_sequence_length - predict_sequence_length`. -/
theorem C10_first_dimension (raw : List ℚ) (hraw : raw.length = 144)
    (L P : Nat) (hL : 1 ≤ L) (hP : 1 ≤ P) (hv : L + P ≤ 144) :
    get_air_passengers raw L P 0 =
      GenResult.whole (air_x (scaleSeries raw) L P, air_y (scaleSeries raw) L P) ∧
    (air_x (scaleSeries raw) L P).length = 144 - L - P ∧
    (air_y (scaleSeries raw) L P).length = 144 - L - P := by
  have hlen : (scaleSeries raw).length = 144 := by
    rw [scaleSeries, List.length_map, hraw]
  refine ⟨?_, ?_, ?_⟩
  · unfold get_air_passengers
    rw [if_neg (lt_irrefl 0)]
  · rw [length_air_x _ _ _ hP, hlen]
  · rw [length_air_y _ _ _ hP, hlen]

/-- Witness for C10 on a constant 144-row series with the default window
sizes 24 and 8. -/
theorem C10_first_dimension_witness :
    (List.replicate 144 (0 : ℚ)).length = 144 ∧
    (air_x (scaleSeries (List.replicate 144 0)) 24 8).length = 144 - 24 - 8 :=
  ⟨by simp,
    (C10_first_dimension (List.replicate 144 0) (by simp) 24 8
      (by decide) (by decide) (by decide)).2.1⟩

end TFTS
